import Mathlib

/-!
Verification development for the npm-audit-excel configuration resolver and
vulnerability prioritization engine.

The configuration data model, the default configuration, the preset registry,
the two merge algorithms (the module-level `mergeConfig` of reportConfig.ts and
`ConfigManager.deepMergeConfig`), `ConfigManager.loadConfig`,
`ConfigManager.applyPreset`, `ConfigManager.loadConfigFromFile` and the
validation helpers of types/validation.ts are embedded below as executable
Lean functions.  JavaScript objects with a fixed, closed key set are embedded
as functions out of a key enumeration; a TypeScript `Partial` record becomes a
function into `Option`, and an absent optional record is identified with the
empty record (the two are indistinguishable by every spread the code performs).
JavaScript numbers are embedded as `Int` where the program only ever stores
integers, and as `Rat` for the CVSS-valued fields; all values involved are
exactly representable, so no floating-point rounding is lost.
-/

/-- The closed set of 16 recognized report columns (types/index.ts, `ColumnName`). -/
inductive ColumnName
  | priority | score | package | severity | cvss | dependencyType
  | fixAvailable | fixVersion | majorChange | vulnerability | cwe
  | affectedPackages | vulnerableRange | fixCommand | advisoryUrl | notes
  deriving DecidableEq, Fintype, Repr

/-- Severity levels of a vulnerability (types/index.ts, `SeverityLevel`). -/
inductive SeverityLevel
  | critical | high | moderate | low | info
  deriving DecidableEq, Fintype, Repr

/-- Priority buckets of a scored vulnerability (types/index.ts, `PriorityCategory`). -/
inductive PriorityCategory
  | URGENT | HIGH | MEDIUM | LOW
  deriving DecidableEq, Fintype, Repr

/-- Keys of `ColorConfig.priority`. -/
inductive PriorityColorKey
  | urgent | high | medium | low
  deriving DecidableEq, Fintype, Repr

/-- Keys of `ColorConfig.severity`. -/
inductive SeverityColorKey
  | critical | high | moderate | low
  deriving DecidableEq, Fintype, Repr

/-- Keys of `ColorConfig.text`. -/
inductive TextColorKey
  | white | black
  deriving DecidableEq, Fintype, Repr

/-- Keys of `ColorConfig.background`. -/
inductive BackgroundColorKey
  | header | alternatingRow
  deriving DecidableEq, Fintype, Repr

/-- Keys of `ColorConfig.cvss`. -/
inductive CvssColorKey
  | highRisk | mediumRisk
  deriving DecidableEq, Fintype, Repr

/-- Keys of `ColorConfig.fix`. -/
inductive FixColorKey
  | available | notAvailable
  deriving DecidableEq, Fintype, Repr

/-- Keys of `LayoutConfig.rowHeights`. -/
inductive RowHeightKey
  | title | header
  deriving DecidableEq, Fintype, Repr

/-- Keys of `LayoutConfig.fontSizes`. -/
inductive FontSizeKey
  | title | summary
  deriving DecidableEq, Fintype, Repr

/-- Keys of `LayoutConfig.textLimits`. -/
inductive TextLimitKey
  | vulnerabilityTitle
  deriving DecidableEq, Fintype, Repr

/-- Keys of `LayoutConfig.freezePanes`. -/
inductive FreezePaneKey
  | row | col
  deriving DecidableEq, Fintype, Repr

/-- Keys of `ScoringConfig.bonusPoints`. -/
inductive BonusKey
  | directDependency | fixAvailable | highCvss | mediumCvss
  deriving DecidableEq, Fintype, Repr

/-- Keys of `ScoringConfig.penalties`. -/
inductive PenaltyKey
  | majorVersion | effectsPerPackage | maxEffectsPenalty
  deriving DecidableEq, Fintype, Repr

/-- Keys of `ScoringConfig.thresholds`.  The two CVSS thresholds and the three
priority cut points live in one record in the source, so they share one key
enumeration; all five values are embedded as rationals. -/
inductive ThresholdKey
  | highCvss | mediumCvss | urgentPriority | highPriority | mediumPriority
  deriving DecidableEq, Fintype, Repr

/-- `ColumnConfig` of reportConfig.ts: visibility, order, widths and optional
custom headers for the 16 columns.  `customHeaders` is an optional partial
record in the source; the absent record is embedded as the everywhere-`none`
function. -/
structure ColumnConfig where
  visible : ColumnName → Bool
  order : List ColumnName
  widths : ColumnName → Int
  customHeaders : ColumnName → Option String
  deriving DecidableEq

/-- `ColorConfig` of reportConfig.ts. -/
structure ColorConfig where
  priority : PriorityColorKey → String
  severity : SeverityColorKey → String
  text : TextColorKey → String
  background : BackgroundColorKey → String
  cvss : CvssColorKey → String
  fix : FixColorKey → String
  border : String
  deriving DecidableEq

/-- `LayoutConfig` of reportConfig.ts. -/
structure LayoutConfig where
  rowHeights : RowHeightKey → Int
  fontSizes : FontSizeKey → Int
  textLimits : TextLimitKey → Int
  freezePanes : FreezePaneKey → Int
  enableAutoFilter : Bool
  enableAlternatingRows : Bool
  deriving DecidableEq

/-- `ScoringConfig` of reportConfig.ts. -/
structure ScoringConfig where
  severityWeights : SeverityLevel → Int
  bonusPoints : BonusKey → Int
  penalties : PenaltyKey → Int
  thresholds : ThresholdKey → Rat
  deriving DecidableEq

/-- `OutputConfig` of reportConfig.ts. -/
structure OutputConfig where
  includeTitle : Bool
  includeSummary : Bool
  includeTimestamp : Bool
  dateFormat : String
  worksheetName : String
  deriving DecidableEq

/-- `ReportConfig` of reportConfig.ts: the unit the Config Resolver merges. -/
structure ReportConfig where
  columns : ColumnConfig
  colors : ColorConfig
  layout : LayoutConfig
  scoring : ScoringConfig
  output : OutputConfig
  deriving DecidableEq

/-! Constants of constants.ts. -/

/-- `COLUMN_WIDTHS` of constants.ts. -/
def COLUMN_WIDTHS : ColumnName → Int
  | .priority => 12
  | .score => 8
  | .package => 35
  | .severity => 12
  | .cvss => 8
  | .dependencyType => 15
  | .fixAvailable => 15
  | .fixVersion => 20
  | .majorChange => 14
  | .vulnerability => 50
  | .cwe => 15
  | .affectedPackages => 18
  | .vulnerableRange => 25
  | .fixCommand => 45
  | .advisoryUrl => 40
  | .notes => 25

/-- `COLORS` of constants.ts (ARGB strings). -/
def COLORS_PRIORITY : PriorityColorKey → String
  | .urgent => "FF8B0000"
  | .high => "FFFF4500"
  | .medium => "FFFFD700"
  | .low => "FF98FB98"

def COLORS_SEVERITY : SeverityColorKey → String
  | .critical => "FFFF0000"
  | .high => "FFFFA500"
  | .moderate => "FFFFFF00"
  | .low => "FF90EE90"

def COLORS_TEXT : TextColorKey → String
  | .white => "FFFFFFFF"
  | .black => "FF000000"

def COLORS_BACKGROUND : BackgroundColorKey → String
  | .header => "FF1F4788"
  | .alternatingRow => "FFF2F2F2"

def COLORS_CVSS : CvssColorKey → String
  | .highRisk => "FFFF0000"
  | .mediumRisk => "FFFF4500"

def COLORS_FIX : FixColorKey → String
  | .available => "FF008000"
  | .notAvailable => "FFFF0000"

def COLORS_BORDER_LIGHT : String := "FFD3D3D3"

/-- `SEVERITY_WEIGHTS` of constants.ts. -/
def SEVERITY_WEIGHTS : SeverityLevel → Int
  | .critical => 40
  | .high => 30
  | .moderate => 20
  | .low => 10
  | .info => 5

/-- `PRIORITY_SCORING` of constants.ts: bonus points, penalty points and
thresholds for the priority calculation. -/
def PRIORITY_SCORING_DIRECT_DEPENDENCY_BONUS : Int := 15
def PRIORITY_SCORING_FIX_AVAILABLE_BONUS : Int := 10
def PRIORITY_SCORING_HIGH_CVSS_BONUS : Int := 10
def PRIORITY_SCORING_MEDIUM_CVSS_BONUS : Int := 5
def PRIORITY_SCORING_MAJOR_VERSION_PENALTY : Int := 5
def PRIORITY_SCORING_EFFECTS_PENALTY_PER_PACKAGE : Int := 2
def PRIORITY_SCORING_MAX_EFFECTS_PENALTY : Int := 10
def PRIORITY_SCORING_HIGH_CVSS_THRESHOLD : Rat := 9
def PRIORITY_SCORING_MEDIUM_CVSS_THRESHOLD : Rat := 7
def PRIORITY_SCORING_URGENT_THRESHOLD : Int := 50
def PRIORITY_SCORING_HIGH_THRESHOLD : Int := 35
def PRIORITY_SCORING_MEDIUM_THRESHOLD : Int := 20

/-- `DEFAULT_CONFIG` of reportConfig.ts. -/
def DEFAULT_CONFIG : ReportConfig :=
  { columns :=
      { visible := fun c =>
          match c with
          | .priority => true
          | .score => true
          | .package => true
          | .severity => true
          | .cvss => true
          | .dependencyType => true
          | .fixAvailable => true
          | .fixVersion => true
          | .majorChange => true
          | .vulnerability => true
          | .cwe => true
          | .affectedPackages => true
          | .vulnerableRange => true
          | .fixCommand => true
          | .advisoryUrl => true
          | .notes => true
        order := [.priority, .score, .package, .severity, .cvss, .dependencyType,
          .fixAvailable, .fixVersion, .majorChange, .vulnerability, .cwe,
          .affectedPackages, .vulnerableRange, .fixCommand, .advisoryUrl, .notes]
        widths := fun c => COLUMN_WIDTHS c
        customHeaders := fun _ => none }
    colors :=
      { priority := fun k => COLORS_PRIORITY k
        severity := fun k => COLORS_SEVERITY k
        text := fun k => COLORS_TEXT k
        background := fun k => COLORS_BACKGROUND k
        cvss := fun k => COLORS_CVSS k
        fix := fun k => COLORS_FIX k
        border := COLORS_BORDER_LIGHT }
    layout :=
      { rowHeights := fun k =>
          match k with
          | .title => 30
          | .header => 25
        fontSizes := fun k =>
          match k with
          | .title => 16
          | .summary => 12
        textLimits := fun _ => 80
        freezePanes := fun k =>
          match k with
          | .row => 5
          | .col => 0
        enableAutoFilter := true
        enableAlternatingRows := true }
    scoring :=
      { severityWeights := fun s =>
          match s with
          | .critical => 40
          | .high => 30
          | .moderate => 20
          | .low => 10
          | .info => 5
        bonusPoints := fun k =>
          match k with
          | .directDependency => 15
          | .fixAvailable => 10
          | .highCvss => 10
          | .mediumCvss => 5
        penalties := fun k =>
          match k with
          | .majorVersion => 5
          | .effectsPerPackage => 2
          | .maxEffectsPenalty => 10
        thresholds := fun k =>
          match k with
          | .highCvss => 9
          | .mediumCvss => 7
          | .urgentPriority => 50
          | .highPriority => 35
          | .mediumPriority => 20 }
    output :=
      { includeTitle := true
        includeSummary := true
        includeTimestamp := true
        dateFormat := "toLocaleString"
        worksheetName := "Security Report" } }

/-! Partial configurations.  `DeepPartial<ReportConfig>` of types/index.ts:
every section is optional, every nested record is a partial record, every leaf
is optional. -/

/-- Deep partial of `ColumnConfig`. -/
structure PartialColumnConfig where
  visible : Option (ColumnName → Option Bool)
  order : Option (List ColumnName)
  widths : Option (ColumnName → Option Int)
  customHeaders : Option (ColumnName → Option String)
  deriving DecidableEq

/-- Deep partial of `ColorConfig`. -/
structure PartialColorConfig where
  priority : Option (PriorityColorKey → Option String)
  severity : Option (SeverityColorKey → Option String)
  text : Option (TextColorKey → Option String)
  background : Option (BackgroundColorKey → Option String)
  cvss : Option (CvssColorKey → Option String)
  fix : Option (FixColorKey → Option String)
  border : Option String
  deriving DecidableEq

/-- Deep partial of `LayoutConfig`. -/
structure PartialLayoutConfig where
  rowHeights : Option (RowHeightKey → Option Int)
  fontSizes : Option (FontSizeKey → Option Int)
  textLimits : Option (TextLimitKey → Option Int)
  freezePanes : Option (FreezePaneKey → Option Int)
  enableAutoFilter : Option Bool
  enableAlternatingRows : Option Bool
  deriving DecidableEq

/-- Deep partial of `ScoringConfig`. -/
structure PartialScoringConfig where
  severityWeights : Option (SeverityLevel → Option Int)
  bonusPoints : Option (BonusKey → Option Int)
  penalties : Option (PenaltyKey → Option Int)
  thresholds : Option (ThresholdKey → Option Rat)
  deriving DecidableEq

/-- Deep partial of `OutputConfig`. -/
structure PartialOutputConfig where
  includeTitle : Option Bool
  includeSummary : Option Bool
  includeTimestamp : Option Bool
  dateFormat : Option String
  worksheetName : Option String
  deriving DecidableEq

/-- Deep partial of `ReportConfig`. -/
structure PartialReportConfig where
  columns : Option PartialColumnConfig
  colors : Option PartialColorConfig
  layout : Option PartialLayoutConfig
  scoring : Option PartialScoringConfig
  output : Option PartialOutputConfig
  deriving DecidableEq

/-- The everywhere-absent partial configuration (the empty object literal). -/
def emptyPartialConfig : PartialReportConfig :=
  { columns := none, colors := none, layout := none, scoring := none, output := none }

/-! The preset registry `PRESET_CONFIGS` of reportConfig.ts.  Each preset is a
built-in partial configuration; the registry maps the four preset names to
them. -/

/-- The `minimal` preset: only the five essential columns visible. -/
def minimalPreset : PartialReportConfig :=
  { columns := some
      { visible := some fun c =>
          match c with
          | .priority => some true
          | .package => some true
          | .severity => some true
          | .fixAvailable => some true
          | .fixCommand => some true
          | .score => some false
          | .cvss => some false
          | .dependencyType => some false
          | .fixVersion => some false
          | .majorChange => some false
          | .vulnerability => some false
          | .cwe => some false
          | .affectedPackages => some false
          | .vulnerableRange => some false
          | .advisoryUrl => some false
          | .notes => some false
        order := some [.priority, .package, .severity, .fixAvailable, .fixCommand]
        widths := some fun c => some (COLUMN_WIDTHS c)
        customHeaders := none }
    colors := none
    layout := none
    scoring := none
    output := none }

/-- The `developer` preset. -/
def developerPreset : PartialReportConfig :=
  { columns := some
      { visible := some fun c =>
          match c with
          | .priority => some true
          | .score => some true
          | .package => some true
          | .severity => some true
          | .cvss => some true
          | .dependencyType => some true
          | .fixAvailable => some true
          | .fixVersion => some true
          | .fixCommand => some true
          | .vulnerability => some true
          | .majorChange => some false
          | .cwe => some false
          | .affectedPackages => some false
          | .vulnerableRange => some false
          | .advisoryUrl => some false
          | .notes => some false
        order := some [.priority, .package, .severity, .dependencyType, .fixAvailable,
          .fixCommand, .score, .cvss, .fixVersion, .vulnerability]
        widths := some fun c => some (COLUMN_WIDTHS c)
        customHeaders := none }
    colors := none
    layout := none
    scoring := none
    output := none }

/-- The `security` preset. -/
def securityPreset : PartialReportConfig :=
  { columns := some
      { visible := some fun c =>
          match c with
          | .priority => some true
          | .score => some true
          | .package => some true
          | .severity => some true
          | .cvss => some true
          | .vulnerability => some true
          | .cwe => some true
          | .advisoryUrl => some true
          | .dependencyType => some true
          | .fixAvailable => some true
          | .notes => some true
          | .fixVersion => some false
          | .majorChange => some false
          | .affectedPackages => some false
          | .vulnerableRange => some false
          | .fixCommand => some false
        order := some [.priority, .severity, .cvss, .package, .vulnerability, .cwe,
          .dependencyType, .fixAvailable, .advisoryUrl, .score, .notes]
        widths := some fun c => some (COLUMN_WIDTHS c)
        customHeaders := none }
    colors := none
    layout := none
    scoring := none
    output := none }

/-- The `highContrast` preset: an alternate color palette only. -/
def highContrastPreset : PartialReportConfig :=
  { columns := none
    colors := some
      { priority := some fun k =>
          match k with
          | .urgent => some "FF000000"
          | .high => some "FF800000"
          | .medium => some "FF808000"
          | .low => some "FF008000"
        severity := some fun k =>
          match k with
          | .critical => some "FF000000"
          | .high => some "FF800000"
          | .moderate => some "FF808000"
          | .low => some "FF008000"
        text := some fun k =>
          match k with
          | .white => some "FFFFFFFF"
          | .black => some "FF000000"
        background := some fun k =>
          match k with
          | .header => some "FF000080"
          | .alternatingRow => some "FFE0E0E0"
        cvss := some fun k =>
          match k with
          | .highRisk => some "FF000000"
          | .mediumRisk => some "FF800000"
        fix := some fun k =>
          match k with
          | .available => some "FF008000"
          | .notAvailable => some "FF800000"
        border := some "FF000000" }
    layout := none
    scoring := none
    output := none }

/-- `PRESET_CONFIGS` of reportConfig.ts: the registry of the four built-in
presets, keyed by name. -/
def PRESET_CONFIGS : List (String × PartialReportConfig) :=
  [("minimal", minimalPreset), ("developer", developerPreset),
   ("security", securityPreset), ("highContrast", highContrastPreset)]

/-- `hasProperty(PRESET_CONFIGS, name)` followed by `PRESET_CONFIGS[name]()`:
registry lookup by preset name. -/
def lookupPreset (name : String) : Option PartialReportConfig :=
  PRESET_CONFIGS.lookup name

/-! Merge machinery.  A JavaScript object spread over a closed key set,
`\x7b...base, ...partial\x7d`, keeps the base value at every key the partial
does not set. -/

/-- Spread of an optional partial record over a total record:
`\x7b...base, ...partial\x7d` where `partial` may be absent. -/
def spreadRecord {K V : Type} (base : K → V) (p : Option (K → Option V)) : K → V :=
  match p with
  | none => base
  | some q => fun k => (q k).getD (base k)

/-- Spread of an optional partial record over an already partial record
(used for `customHeaders`, whose full form is itself a partial record). -/
def spreadOptRecord {K V : Type} (base : K → Option V) (p : Option (K → Option V)) :
    K → Option V :=
  match p with
  | none => base
  | some q => fun k => (q k).orElse fun _ => base k

/-- The `if (partial.columns)` block of `ConfigManager.deepMergeConfig`
(configManager.ts lines 45-62): absent section keeps the base section;
otherwise `visible`, `widths` and `customHeaders` are merged per key and the
remaining keys (`order`) are taken from the shallow spread. -/
def spreadColumnConfig (base : ColumnConfig) (p : Option PartialColumnConfig) :
    ColumnConfig :=
  match p with
  | none => base
  | some pc =>
    { visible := spreadRecord base.visible pc.visible
      order := pc.order.getD base.order
      widths := spreadRecord base.widths pc.widths
      customHeaders := spreadOptRecord base.customHeaders pc.customHeaders }

/-- The `if (partial.colors)` block of `ConfigManager.deepMergeConfig`
(configManager.ts lines 64-93). -/
def spreadColorConfig (base : ColorConfig) (p : Option PartialColorConfig) :
    ColorConfig :=
  match p with
  | none => base
  | some pc =>
    { priority := spreadRecord base.priority pc.priority
      severity := spreadRecord base.severity pc.severity
      text := spreadRecord base.text pc.text
      background := spreadRecord base.background pc.background
      cvss := spreadRecord base.cvss pc.cvss
      fix := spreadRecord base.fix pc.fix
      border := pc.border.getD base.border }

/-- The `if (partial.layout)` block of `ConfigManager.deepMergeConfig`
(configManager.ts lines 95-116). -/
def spreadLayoutConfig (base : LayoutConfig) (p : Option PartialLayoutConfig) :
    LayoutConfig :=
  match p with
  | none => base
  | some pl =>
    { rowHeights := spreadRecord base.rowHeights pl.rowHeights
      fontSizes := spreadRecord base.fontSizes pl.fontSizes
      textLimits := spreadRecord base.textLimits pl.textLimits
      freezePanes := spreadRecord base.freezePanes pl.freezePanes
      enableAutoFilter := pl.enableAutoFilter.getD base.enableAutoFilter
      enableAlternatingRows := pl.enableAlternatingRows.getD base.enableAlternatingRows }

/-- The `if (partial.scoring)` block of `ConfigManager.deepMergeConfig`
(configManager.ts lines 118-139). -/
def spreadScoringConfig (base : ScoringConfig) (p : Option PartialScoringConfig) :
    ScoringConfig :=
  match p with
  | none => base
  | some ps =>
    { severityWeights := spreadRecord base.severityWeights ps.severityWeights
      bonusPoints := spreadRecord base.bonusPoints ps.bonusPoints
      penalties := spreadRecord base.penalties ps.penalties
      thresholds := spreadRecord base.thresholds ps.thresholds }

/-- The `if (partial.output)` block of `ConfigManager.deepMergeConfig`
(configManager.ts lines 141-146): a shallow spread. -/
def spreadOutputConfig (base : OutputConfig) (p : Option PartialOutputConfig) :
    OutputConfig :=
  match p with
  | none => base
  | some po =>
    { includeTitle := po.includeTitle.getD base.includeTitle
      includeSummary := po.includeSummary.getD base.includeSummary
      includeTimestamp := po.includeTimestamp.getD base.includeTimestamp
      dateFormat := po.dateFormat.getD base.dateFormat
      worksheetName := po.worksheetName.getD base.worksheetName }

/-- `ConfigManager.deepMergeConfig` (configManager.ts lines 42-149): deep
merge of a partial configuration into a base configuration, prioritizing the
partial one; each top-level section is only rebuilt when the partial supplies
it. -/
def deepMergeConfig (base : ReportConfig) (p : PartialReportConfig) :
    ReportConfig :=
  { columns := spreadColumnConfig base.columns p.columns
    colors := spreadColorConfig base.colors p.colors
    layout := spreadLayoutConfig base.layout p.layout
    scoring := spreadScoringConfig base.scoring p.scoring
    output := spreadOutputConfig base.output p.output }

/-- `mergeConfig` of reportConfig.ts (lines 473-560): merges a user partial
configuration with `DEFAULT_CONFIG`.  Unlike `deepMergeConfig` it always
rebuilds every section against the defaults, and it does not merge
`customHeaders` per key: the shallow spread replaces that record wholesale. -/
def mergeConfig (userConfig : PartialReportConfig) : ReportConfig :=
  { columns :=
      { visible := spreadRecord DEFAULT_CONFIG.columns.visible
          (userConfig.columns.bind fun pc => pc.visible)
        order := (userConfig.columns.bind fun pc => pc.order).getD
          DEFAULT_CONFIG.columns.order
        widths := spreadRecord DEFAULT_CONFIG.columns.widths
          (userConfig.columns.bind fun pc => pc.widths)
        customHeaders := (userConfig.columns.bind fun pc => pc.customHeaders).getD
          DEFAULT_CONFIG.columns.customHeaders }
    colors :=
      { priority := spreadRecord DEFAULT_CONFIG.colors.priority
          (userConfig.colors.bind fun pc => pc.priority)
        severity := spreadRecord DEFAULT_CONFIG.colors.severity
          (userConfig.colors.bind fun pc => pc.severity)
        text := spreadRecord DEFAULT_CONFIG.colors.text
          (userConfig.colors.bind fun pc => pc.text)
        background := spreadRecord DEFAULT_CONFIG.colors.background
          (userConfig.colors.bind fun pc => pc.background)
        cvss := spreadRecord DEFAULT_CONFIG.colors.cvss
          (userConfig.colors.bind fun pc => pc.cvss)
        fix := spreadRecord DEFAULT_CONFIG.colors.fix
          (userConfig.colors.bind fun pc => pc.fix)
        border := (userConfig.colors.bind fun pc => pc.border).getD
          DEFAULT_CONFIG.colors.border }
    layout :=
      { rowHeights := spreadRecord DEFAULT_CONFIG.layout.rowHeights
          (userConfig.layout.bind fun pl => pl.rowHeights)
        fontSizes := spreadRecord DEFAULT_CONFIG.layout.fontSizes
          (userConfig.layout.bind fun pl => pl.fontSizes)
        textLimits := spreadRecord DEFAULT_CONFIG.layout.textLimits
          (userConfig.layout.bind fun pl => pl.textLimits)
        freezePanes := spreadRecord DEFAULT_CONFIG.layout.freezePanes
          (userConfig.layout.bind fun pl => pl.freezePanes)
        enableAutoFilter := (userConfig.layout.bind fun pl => pl.enableAutoFilter).getD
          DEFAULT_CONFIG.layout.enableAutoFilter
        enableAlternatingRows :=
          (userConfig.layout.bind fun pl => pl.enableAlternatingRows).getD
            DEFAULT_CONFIG.layout.enableAlternatingRows }
    scoring :=
      { severityWeights := spreadRecord DEFAULT_CONFIG.scoring.severityWeights
          (userConfig.scoring.bind fun ps => ps.severityWeights)
        bonusPoints := spreadRecord DEFAULT_CONFIG.scoring.bonusPoints
          (userConfig.scoring.bind fun ps => ps.bonusPoints)
        penalties := spreadRecord DEFAULT_CONFIG.scoring.penalties
          (userConfig.scoring.bind fun ps => ps.penalties)
        thresholds := spreadRecord DEFAULT_CONFIG.scoring.thresholds
          (userConfig.scoring.bind fun ps => ps.thresholds) }
    output :=
      { includeTitle := (userConfig.output.bind fun po => po.includeTitle).getD
          DEFAULT_CONFIG.output.includeTitle
        includeSummary := (userConfig.output.bind fun po => po.includeSummary).getD
          DEFAULT_CONFIG.output.includeSummary
        includeTimestamp := (userConfig.output.bind fun po => po.includeTimestamp).getD
          DEFAULT_CONFIG.output.includeTimestamp
        dateFormat := (userConfig.output.bind fun po => po.dateFormat).getD
          DEFAULT_CONFIG.output.dateFormat
        worksheetName := (userConfig.output.bind fun po => po.worksheetName).getD
          DEFAULT_CONFIG.output.worksheetName } }

/-! Validation helpers of types/validation.ts. -/

/-- A character matched by the class `[A-Fa-f0-9]`. -/
def isHexDigitChar (c : Char) : Bool :=
  (Char.ofNat 48 ≤ c && c ≤ Char.ofNat 57) ||
  (Char.ofNat 97 ≤ c && c ≤ Char.ofNat 102) ||
  (Char.ofNat 65 ≤ c && c ≤ Char.ofNat 70)

/-- The test of the anchored regular expression
`([A-Fa-f0-9]\x7b6\x7d|[A-Fa-f0-9]\x7b8\x7d)` against a whole string,
given as its character list. -/
def hexRegexTest (l : List Char) : Bool :=
  (l.length == 6 || l.length == 8) && l.all isHexDigitChar

/-- `color.replace(/^#/, '')`: removes one leading `#` character, if any. -/
def replaceLeadingHash (l : List Char) : List Char :=
  match l with
  | c :: t => if c = Char.ofNat 35 then t else l
  | [] => []

/-- `isValidHexColor` of types/validation.ts (lines 60-64): the string matches
the 6-or-8-hex-digit regular expression either directly or after removing one
leading `#`. -/
def isValidHexColor (s : String) : Bool :=
  hexRegexTest s.data || hexRegexTest (replaceLeadingHash s.data)

/-- One step of the validation loops of
`createColorValidation().isValidColorConfig`: a present, truthy (non-empty)
color value must pass `isValidHexColor`.  An absent key and the empty string
(falsy in JavaScript) are skipped by the loop and produce no error. -/
def colorEntryOk (v : Option String) : Bool :=
  match v with
  | none => true
  | some s => s == "" || isValidHexColor s

/-- `createColorValidation().isValidColorConfig` of types/validation.ts
(lines 99-153), restricted to the well-typed partial configurations
representable here: only the `priority` and `severity` color records are
validated, key by key over the literal key lists of the source. -/
def isValidColorConfig (c : PartialColorConfig) : Bool :=
  (match c.priority with
   | none => true
   | some m =>
     colorEntryOk (m .urgent) && colorEntryOk (m .high) &&
     colorEntryOk (m .medium) && colorEntryOk (m .low)) &&
  (match c.severity with
   | none => true
   | some m =>
     colorEntryOk (m .critical) && colorEntryOk (m .high) &&
     colorEntryOk (m .moderate) && colorEntryOk (m .low))

/-- `createColumnValidation().isValidColumnConfig` of types/validation.ts
(lines 160-235), restricted to the well-typed partial configurations
representable here: column names and visibility booleans are correct by
typing, so the remaining check is that every present width is a positive
number. -/
def isValidColumnConfig (c : PartialColumnConfig) : Bool :=
  match c.widths with
  | none => true
  | some m => decide (∀ k, (m k).all fun w => 0 < w)

/-- `ConfigManager.validateScoring` (configManager.ts lines 323-386),
restricted to the well-typed partial configurations representable here:
every present severity weight must be non-negative and the two present CVSS
thresholds must lie between 0 and 10. -/
def validateScoringOk (s : PartialScoringConfig) : Bool :=
  (match s.severityWeights with
   | none => true
   | some m => decide (∀ k, (m k).all fun w => 0 ≤ w)) &&
  (match s.thresholds with
   | none => true
   | some m =>
     ((m .highCvss).all fun v => 0 ≤ v && v ≤ 10) &&
     ((m .mediumCvss).all fun v => 0 ≤ v && v ≤ 10))

/-- `ConfigManager.validateConfig` (configManager.ts lines 252-317), as a
pass/fail check: colors, columns and scoring are validated; layout and output
are not.  In the source a failed check throws an error whose code is
`VALIDATION_FAILED`. -/
def validateConfigOk (c : PartialReportConfig) : Bool :=
  (match c.colors with
   | none => true
   | some pc => isValidColorConfig pc) &&
  (match c.columns with
   | none => true
   | some pc => isValidColumnConfig pc) &&
  (match c.scoring with
   | none => true
   | some ps => validateScoringOk ps)

/-! `ConfigManager.loadConfigFromFile` and `ConfigManager.loadConfig`
(configManager.ts lines 154-218).  The file system and JSON layer is
abstracted into `FileRead`: reading the path either fails (missing file or
other I/O failure) or yields content that either fails to parse or parses to
a partial configuration. -/

/-- The `code` values carried by `ConfigError` in the source. -/
inductive ConfigErrorCode
  | FILE_NOT_FOUND | INVALID_JSON | VALIDATION_FAILED | CONFIG_LOAD_ERROR
  | UNKNOWN_PRESET | INVALID_CONFIG_TYPE
  deriving DecidableEq, Repr

/-- A `ConfigError`: an error value carrying a code and a message. -/
structure ConfigError where
  code : ConfigErrorCode
  message : String
  deriving DecidableEq, Repr

/-- Outcome of reading and JSON-parsing a configuration file path. -/
inductive FileRead
  | enoent
  | readFailure
  | content (parsed : Option PartialReportConfig)
  deriving DecidableEq

/-- `ConfigManager.loadConfigFromFile` (configManager.ts lines 187-218):
a missing file raises `FILE_NOT_FOUND`, unparsable content raises
`INVALID_JSON`, any other read failure raises `CONFIG_LOAD_ERROR`, and parsed
content is validated (`validateConfig` raises `VALIDATION_FAILED` on any
validation error) before being returned. -/
def loadConfigFromFile (r : FileRead) : Except ConfigErrorCode PartialReportConfig :=
  match r with
  | .enoent => .error .FILE_NOT_FOUND
  | .readFailure => .error .CONFIG_LOAD_ERROR
  | .content none => .error .INVALID_JSON
  | .content (some userConfig) =>
    if validateConfigOk userConfig then .ok userConfig
    else .error .VALIDATION_FAILED

/-- The options object accepted by `ConfigManager.loadConfig`.  `configFile`
is a path in the source; here the path is identified with the outcome of
reading it. -/
structure LoadOptions where
  configFile : Option FileRead
  preset : Option String
  inlineConfig : Option PartialReportConfig

/-- `ConfigManager.loadConfig` (configManager.ts lines 154-182).  Starting
from `DEFAULT_CONFIG`: a given preset name is looked up in the registry and,
when found, merged via `mergeConfig` (an unknown name leaves the
configuration untouched); a given config file is loaded via
`loadConfigFromFile` and deep-merged, any load error being caught, logged as
a warning and skipped; a given inline configuration is deep-merged last. -/
def loadConfig (options : LoadOptions) : ReportConfig :=
  let config := DEFAULT_CONFIG
  let config :=
    match options.preset with
    | none => config
    | some p =>
      match lookupPreset p with
      | some presetConfig => mergeConfig presetConfig
      | none => config
  let config :=
    match options.configFile with
    | none => config
    | some r =>
      match loadConfigFromFile r with
      | .ok fileConfig => deepMergeConfig config fileConfig
      | .error _ => config
  match options.inlineConfig with
  | none => config
  | some inl => deepMergeConfig config inl

/-! `ConfigManager.applyPreset` (configManager.ts lines 419-429) spreads the
current full configuration under the preset and re-merges against the
defaults.  A full configuration viewed as a partial one sets every key. -/

/-- A full `ColumnConfig` viewed as a partial one. -/
def toPartialColumnConfig (c : ColumnConfig) : PartialColumnConfig :=
  { visible := some fun k => some (c.visible k)
    order := some c.order
    widths := some fun k => some (c.widths k)
    customHeaders := some c.customHeaders }

/-- A full `ColorConfig` viewed as a partial one. -/
def toPartialColorConfig (c : ColorConfig) : PartialColorConfig :=
  { priority := some fun k => some (c.priority k)
    severity := some fun k => some (c.severity k)
    text := some fun k => some (c.text k)
    background := some fun k => some (c.background k)
    cvss := some fun k => some (c.cvss k)
    fix := some fun k => some (c.fix k)
    border := some c.border }

/-- A full `LayoutConfig` viewed as a partial one. -/
def toPartialLayoutConfig (c : LayoutConfig) : PartialLayoutConfig :=
  { rowHeights := some fun k => some (c.rowHeights k)
    fontSizes := some fun k => some (c.fontSizes k)
    textLimits := some fun k => some (c.textLimits k)
    freezePanes := some fun k => some (c.freezePanes k)
    enableAutoFilter := some c.enableAutoFilter
    enableAlternatingRows := some c.enableAlternatingRows }

/-- A full `ScoringConfig` viewed as a partial one. -/
def toPartialScoringConfig (c : ScoringConfig) : PartialScoringConfig :=
  { severityWeights := some fun k => some (c.severityWeights k)
    bonusPoints := some fun k => some (c.bonusPoints k)
    penalties := some fun k => some (c.penalties k)
    thresholds := some fun k => some (c.thresholds k) }

/-- A full `OutputConfig` viewed as a partial one. -/
def toPartialOutputConfig (c : OutputConfig) : PartialOutputConfig :=
  { includeTitle := some c.includeTitle
    includeSummary := some c.includeSummary
    includeTimestamp := some c.includeTimestamp
    dateFormat := some c.dateFormat
    worksheetName := some c.worksheetName }

/-- A full `ReportConfig` viewed as a partial one (every section present). -/
def toPartialConfig (c : ReportConfig) : PartialReportConfig :=
  { columns := some (toPartialColumnConfig c.columns)
    colors := some (toPartialColorConfig c.colors)
    layout := some (toPartialLayoutConfig c.layout)
    scoring := some (toPartialScoringConfig c.scoring)
    output := some (toPartialOutputConfig c.output) }

/-- The top-level shallow spread `\x7b...current, ...presetConfig\x7d` of
`applyPreset`: each section of the preset replaces the corresponding full
section wholesale when present. -/
def overlayTopLevel (current : PartialReportConfig) (p : PartialReportConfig) :
    PartialReportConfig :=
  { columns := p.columns.orElse fun _ => current.columns
    colors := p.colors.orElse fun _ => current.colors
    layout := p.layout.orElse fun _ => current.layout
    scoring := p.scoring.orElse fun _ => current.scoring
    output := p.output.orElse fun _ => current.output }

/-- `ConfigManager.applyPreset` (configManager.ts lines 419-429): an unknown
preset name raises an error with code `UNKNOWN_PRESET` naming the preset; a
known preset is validated (`validateConfig` raises `VALIDATION_FAILED` on
any error) and merged over the current configuration. -/
def applyPreset (current : ReportConfig) (presetName : String) :
    Except ConfigError ReportConfig :=
  match lookupPreset presetName with
  | none => .error { code := .UNKNOWN_PRESET, message := "Unknown preset: " ++ presetName }
  | some presetConfig =>
    if validateConfigOk presetConfig then
      .ok (mergeConfig (overlayTopLevel (toPartialConfig current) presetConfig))
    else
      .error { code := .VALIDATION_FAILED, message := "Configuration validation failed" }

/-- The partial configuration obtained by parsing the file written by
`ConfigManager.generateSampleConfig` (configManager.ts lines 237-247) as a
`DeepPartial<ReportConfig>`.  The sample object is the default configuration
plus three extra keys (`$schema`, `description`, `version`); those keys are
not configuration sections, and `deepMergeConfig` reads only the five section
keys of its second argument, so the parsed file acts exactly as the default
configuration viewed as a partial one. -/
def sampleConfigParsed : PartialReportConfig :=
  toPartialConfig DEFAULT_CONFIG

/-! The vulnerability scorer.  The repository exports a
`VulnerabilityProcessor` whose scoring routine consumes the resolved
`ScoringConfig`; its implementation file is not part of this tree, so the
scoring algorithm itself is taken from the specification while every constant
it consumes (`DEFAULT_CONFIG.scoring`, `PRIORITY_SCORING`) comes from the
source. -/

/-- Modelled from the spec: the `fixAvailable` field of a raw vulnerability is
either the boolean `false` (no fix) or an object carrying `isSemVerMajor`;
`none` is the boolean `false` and `some m` is a fix object whose
`isSemVerMajor` is `m`. -/
def FixAvailable : Type := Option Bool

/-- Modelled from the spec: the CVSS bonus step of the missing
`VulnerabilityProcessor` scoring routine.  `bonusPoints.highCvss` is added
when `cvssScore >= thresholds.highCvss`, otherwise `bonusPoints.mediumCvss`
is added when `cvssScore >= thresholds.mediumCvss`; the two bonuses are
mutually exclusive. -/
def cvssBonus (cfg : ScoringConfig) (cvssScore : Rat) : Int :=
  if cfg.thresholds .highCvss ≤ cvssScore then cfg.bonusPoints .highCvss
  else if cfg.thresholds .mediumCvss ≤ cvssScore then cfg.bonusPoints .mediumCvss
  else 0

/-- Modelled from the spec: the effects penalty step of the missing
`VulnerabilityProcessor` scoring routine:
`min(penalties.maxEffectsPenalty, effectsCount * penalties.effectsPerPackage)`. -/
def effectsPenalty (cfg : ScoringConfig) (effectsCount : Nat) : Int :=
  min (cfg.penalties .maxEffectsPenalty)
    ((effectsCount : Int) * cfg.penalties .effectsPerPackage)

/-- Modelled from the spec: the priority score computation of the missing
`VulnerabilityProcessor`.  Base severity weight, plus the direct-dependency,
fix-available and CVSS bonuses, minus the major-version penalty (when a fix
exists and is a semver-major change) and the capped effects penalty. -/
def calculatePriorityScore (cfg : ScoringConfig) (severity : SeverityLevel)
    (isDirect : Bool) (fixAvailable : Option Bool) (cvssScore : Rat)
    (effectsCount : Nat) : Int :=
  cfg.severityWeights severity
    + (if isDirect then cfg.bonusPoints .directDependency else 0)
    + (if fixAvailable.isSome then cfg.bonusPoints .fixAvailable else 0)
    + cvssBonus cfg cvssScore
    - (if fixAvailable = some true then cfg.penalties .majorVersion else 0)
    - effectsPenalty cfg effectsCount

/-- Modelled from the spec: the priority bucketing of the missing
`VulnerabilityProcessor`: thresholds are compared in strictly descending
order, inclusively, first match wins. -/
def priorityCategoryOf (cfg : ScoringConfig) (score : Int) : PriorityCategory :=
  if cfg.thresholds .urgentPriority ≤ (score : Rat) then .URGENT
  else if cfg.thresholds .highPriority ≤ (score : Rat) then .HIGH
  else if cfg.thresholds .mediumPriority ≤ (score : Rat) then .MEDIUM
  else .LOW

/-! Leaf lookups into a partial configuration: the value a partial
configuration assigns to one leaf field, `none` when any level of nesting is
absent.  These are the observation functions the precedence statements are
phrased with. -/

def visLeaf (x : PartialReportConfig) (c : ColumnName) : Option Bool :=
  x.columns.bind fun pc => pc.visible.bind fun q => q c

def orderLeaf (x : PartialReportConfig) : Option (List ColumnName) :=
  x.columns.bind fun pc => pc.order

def widthsLeaf (x : PartialReportConfig) (c : ColumnName) : Option Int :=
  x.columns.bind fun pc => pc.widths.bind fun q => q c

def customHeadersLeaf (x : PartialReportConfig) (c : ColumnName) : Option String :=
  x.columns.bind fun pc => pc.customHeaders.bind fun q => q c

def priorityColorLeaf (x : PartialReportConfig) (k : PriorityColorKey) : Option String :=
  x.colors.bind fun pc => pc.priority.bind fun q => q k

def severityColorLeaf (x : PartialReportConfig) (k : SeverityColorKey) : Option String :=
  x.colors.bind fun pc => pc.severity.bind fun q => q k

def textColorLeaf (x : PartialReportConfig) (k : TextColorKey) : Option String :=
  x.colors.bind fun pc => pc.text.bind fun q => q k

def backgroundColorLeaf (x : PartialReportConfig) (k : BackgroundColorKey) :
    Option String :=
  x.colors.bind fun pc => pc.background.bind fun q => q k

def cvssColorLeaf (x : PartialReportConfig) (k : CvssColorKey) : Option String :=
  x.colors.bind fun pc => pc.cvss.bind fun q => q k

def fixColorLeaf (x : PartialReportConfig) (k : FixColorKey) : Option String :=
  x.colors.bind fun pc => pc.fix.bind fun q => q k

def borderLeaf (x : PartialReportConfig) : Option String :=
  x.colors.bind fun pc => pc.border

def rowHeightsLeaf (x : PartialReportConfig) (k : RowHeightKey) : Option Int :=
  x.layout.bind fun pl => pl.rowHeights.bind fun q => q k

def fontSizesLeaf (x : PartialReportConfig) (k : FontSizeKey) : Option Int :=
  x.layout.bind fun pl => pl.fontSizes.bind fun q => q k

def textLimitsLeaf (x : PartialReportConfig) (k : TextLimitKey) : Option Int :=
  x.layout.bind fun pl => pl.textLimits.bind fun q => q k

def freezePanesLeaf (x : PartialReportConfig) (k : FreezePaneKey) : Option Int :=
  x.layout.bind fun pl => pl.freezePanes.bind fun q => q k

def autoFilterLeaf (x : PartialReportConfig) : Option Bool :=
  x.layout.bind fun pl => pl.enableAutoFilter

def alternatingRowsLeaf (x : PartialReportConfig) : Option Bool :=
  x.layout.bind fun pl => pl.enableAlternatingRows

def severityWeightsLeaf (x : PartialReportConfig) (k : SeverityLevel) : Option Int :=
  x.scoring.bind fun ps => ps.severityWeights.bind fun q => q k

def bonusPointsLeaf (x : PartialReportConfig) (k : BonusKey) : Option Int :=
  x.scoring.bind fun ps => ps.bonusPoints.bind fun q => q k

def penaltiesLeaf (x : PartialReportConfig) (k : PenaltyKey) : Option Int :=
  x.scoring.bind fun ps => ps.penalties.bind fun q => q k

def thresholdsLeaf (x : PartialReportConfig) (k : ThresholdKey) : Option Rat :=
  x.scoring.bind fun ps => ps.thresholds.bind fun q => q k

def includeTitleLeaf (x : PartialReportConfig) : Option Bool :=
  x.output.bind fun po => po.includeTitle

def includeSummaryLeaf (x : PartialReportConfig) : Option Bool :=
  x.output.bind fun po => po.includeSummary

def includeTimestampLeaf (x : PartialReportConfig) : Option Bool :=
  x.output.bind fun po => po.includeTimestamp

def dateFormatLeaf (x : PartialReportConfig) : Option String :=
  x.output.bind fun po => po.dateFormat

def worksheetNameLeaf (x : PartialReportConfig) : Option String :=
  x.output.bind fun po => po.worksheetName

/-- The partial configuration setting exactly one severity-weight key, used
to state the non-destructive-merge property. -/
def singleWeightPartial (s : SeverityLevel) (w : Int) : PartialReportConfig :=
  { columns := none
    colors := none
    layout := none
    scoring := some
      { severityWeights := some fun t => if t = s then some w else none
        bonusPoints := none
        penalties := none
        thresholds := none }
    output := none }

/-- A concrete file-sourced partial configuration that passes validation:
it only overrides the border color. -/
def borderPartial : PartialReportConfig :=
  { columns := none
    colors := some
      { priority := none, severity := none, text := none, background := none,
        cvss := none, fix := none, border := some "FF123456" }
    layout := none
    scoring := none
    output := none }

/-- The shape the specification ascribes to an accepted color string, written
from its words: the string consists of exactly 6 or exactly 8 hexadecimal
digits, case-insensitive.  Character codes 48-57, 97-102 and 65-70 are the
decimal digits and the lower- and upper-case hex letters. -/
def specHexBody (l : List Char) : Prop :=
  (l.length = 6 ∨ l.length = 8) ∧
  ∀ c ∈ l,
    (Char.ofNat 48 ≤ c ∧ c ≤ Char.ofNat 57) ∨
    (Char.ofNat 97 ≤ c ∧ c ≤ Char.ofNat 102) ∨
    (Char.ofNat 65 ≤ c ∧ c ≤ Char.ofNat 70)

/-- The specification sentence for accepted colors: 6 or 8 hex digits,
optionally preceded by a single leading hash character (code 35). -/
def specHexColorShape (s : String) : Prop :=
  specHexBody s.data ∨ ∃ t, s.data = Char.ofNat 35 :: t ∧ specHexBody t

/-! Theorems. -/

@[simp]
lemma optBind_assoc {α β γ : Type} (x : Option α) (f : α → Option β) (g : β → Option γ) :
    (x.bind f).bind g = x.bind fun a => (f a).bind g := by
  cases x <;> rfl

@[simp]
lemma spreadRecord_apply {K V : Type} (b : K → V) (o : Option (K → Option V)) (k : K) :
    spreadRecord b o k = (o.bind fun q => q k).getD (b k) := by
  cases o <;> rfl

@[simp]
lemma spreadOptRecord_apply {K V : Type} (b : K → Option V) (o : Option (K → Option V))
    (k : K) :
    spreadOptRecord b o k = (o.bind fun q => q k).orElse fun _ => b k := by
  cases o with
  | none => rfl
  | some q => rfl
@[simp]
lemma deepMerge_visible (b : ReportConfig) (x : PartialReportConfig) (k : ColumnName) :
    (deepMergeConfig b x).columns.visible k = (visLeaf x k).getD (b.columns.visible k) := by
  cases hx : x.columns <;> simp [deepMergeConfig, spreadColumnConfig, visLeaf, hx]

@[simp]
lemma deepMerge_widths (b : ReportConfig) (x : PartialReportConfig) (k : ColumnName) :
    (deepMergeConfig b x).columns.widths k = (widthsLeaf x k).getD (b.columns.widths k) := by
  cases hx : x.columns <;> simp [deepMergeConfig, spreadColumnConfig, widthsLeaf, hx]

@[simp]
lemma deepMerge_priorityColor (b : ReportConfig) (x : PartialReportConfig) (k : PriorityColorKey) :
    (deepMergeConfig b x).colors.priority k = (priorityColorLeaf x k).getD (b.colors.priority k) := by
  cases hx : x.colors <;> simp [deepMergeConfig, spreadColorConfig, priorityColorLeaf, hx]

@[simp]
lemma deepMerge_severityColor (b : ReportConfig) (x : PartialReportConfig) (k : SeverityColorKey) :
    (deepMergeConfig b x).colors.severity k = (severityColorLeaf x k).getD (b.colors.severity k) := by
  cases hx : x.colors <;> simp [deepMergeConfig, spreadColorConfig, severityColorLeaf, hx]

@[simp]
lemma deepMerge_textColor (b : ReportConfig) (x : PartialReportConfig) (k : TextColorKey) :
    (deepMergeConfig b x).colors.text k = (textColorLeaf x k).getD (b.colors.text k) := by
  cases hx : x.colors <;> simp [deepMergeConfig, spreadColorConfig, textColorLeaf, hx]

@[simp]
lemma deepMerge_backgroundColor (b : ReportConfig) (x : PartialReportConfig) (k : BackgroundColorKey) :
    (deepMergeConfig b x).colors.background k = (backgroundColorLeaf x k).getD (b.colors.background k) := by
  cases hx : x.colors <;> simp [deepMergeConfig, spreadColorConfig, backgroundColorLeaf, hx]

@[simp]
lemma deepMerge_cvssColor (b : ReportConfig) (x : PartialReportConfig) (k : CvssColorKey) :
    (deepMergeConfig b x).colors.cvss k = (cvssColorLeaf x k).getD (b.colors.cvss k) := by
  cases hx : x.colors <;> simp [deepMergeConfig, spreadColorConfig, cvssColorLeaf, hx]

@[simp]
lemma deepMerge_fixColor (b : ReportConfig) (x : PartialReportConfig) (k : FixColorKey) :
    (deepMergeConfig b x).colors.fix k = (fixColorLeaf x k).getD (b.colors.fix k) := by
  cases hx : x.colors <;> simp [deepMergeConfig, spreadColorConfig, fixColorLeaf, hx]

@[simp]
lemma deepMerge_rowHeights (b : ReportConfig) (x : PartialReportConfig) (k : RowHeightKey) :
    (deepMergeConfig b x).layout.rowHeights k = (rowHeightsLeaf x k).getD (b.layout.rowHeights k) := by
  cases hx : x.layout <;> simp [deepMergeConfig, spreadLayoutConfig, rowHeightsLeaf, hx]

@[simp]
lemma deepMerge_fontSizes (b : ReportConfig) (x : PartialReportConfig) (k : FontSizeKey) :
    (deepMergeConfig b x).layout.fontSizes k = (fontSizesLeaf x k).getD (b.layout.fontSizes k) := by
  cases hx : x.layout <;> simp [deepMergeConfig, spreadLayoutConfig, fontSizesLeaf, hx]

@[simp]
lemma deepMerge_textLimits (b : ReportConfig) (x : PartialReportConfig) (k : TextLimitKey) :
    (deepMergeConfig b x).layout.textLimits k = (textLimitsLeaf x k).getD (b.layout.textLimits k) := by
  cases hx : x.layout <;> simp [deepMergeConfig, spreadLayoutConfig, textLimitsLeaf, hx]

@[simp]
lemma deepMerge_freezePanes (b : ReportConfig) (x : PartialReportConfig) (k : FreezePaneKey) :
    (deepMergeConfig b x).layout.freezePanes k = (freezePanesLeaf x k).getD (b.layout.freezePanes k) := by
  cases hx : x.layout <;> simp [deepMergeConfig, spreadLayoutConfig, freezePanesLeaf, hx]

@[simp]
lemma deepMerge_severityWeights (b : ReportConfig) (x : PartialReportConfig) (k : SeverityLevel) :
    (deepMergeConfig b x).scoring.severityWeights k = (severityWeightsLeaf x k).getD (b.scoring.severityWeights k) := by
  cases hx : x.scoring <;> simp [deepMergeConfig, spreadScoringConfig, severityWeightsLeaf, hx]

@[simp]
lemma deepMerge_bonusPoints (b : ReportConfig) (x : PartialReportConfig) (k : BonusKey) :
    (deepMergeConfig b x).scoring.bonusPoints k = (bonusPointsLeaf x k).getD (b.scoring.bonusPoints k) := by
  cases hx : x.scoring <;> simp [deepMergeConfig, spreadScoringConfig, bonusPointsLeaf, hx]

@[simp]
lemma deepMerge_penalties (b : ReportConfig) (x : PartialReportConfig) (k : PenaltyKey) :
    (deepMergeConfig b x).scoring.penalties k = (penaltiesLeaf x k).getD (b.scoring.penalties k) := by
  cases hx : x.scoring <;> simp [deepMergeConfig, spreadScoringConfig, penaltiesLeaf, hx]

@[simp]
lemma deepMerge_thresholds (b : ReportConfig) (x : PartialReportConfig) (k : ThresholdKey) :
    (deepMergeConfig b x).scoring.thresholds k = (thresholdsLeaf x k).getD (b.scoring.thresholds k) := by
  cases hx : x.scoring <;> simp [deepMergeConfig, spreadScoringConfig, thresholdsLeaf, hx]

@[simp]
lemma deepMerge_order (b : ReportConfig) (x : PartialReportConfig) :
    (deepMergeConfig b x).columns.order = (orderLeaf x).getD b.columns.order := by
  cases hx : x.columns <;> simp [deepMergeConfig, spreadColumnConfig, orderLeaf, hx]

@[simp]
lemma deepMerge_border (b : ReportConfig) (x : PartialReportConfig) :
    (deepMergeConfig b x).colors.border = (borderLeaf x).getD b.colors.border := by
  cases hx : x.colors <;> simp [deepMergeConfig, spreadColorConfig, borderLeaf, hx]

@[simp]
lemma deepMerge_enableAutoFilter (b : ReportConfig) (x : PartialReportConfig) :
    (deepMergeConfig b x).layout.enableAutoFilter = (autoFilterLeaf x).getD b.layout.enableAutoFilter := by
  cases hx : x.layout <;> simp [deepMergeConfig, spreadLayoutConfig, autoFilterLeaf, hx]

@[simp]
lemma deepMerge_enableAlternatingRows (b : ReportConfig) (x : PartialReportConfig) :
    (deepMergeConfig b x).layout.enableAlternatingRows = (alternatingRowsLeaf x).getD b.layout.enableAlternatingRows := by
  cases hx : x.layout <;> simp [deepMergeConfig, spreadLayoutConfig, alternatingRowsLeaf, hx]

@[simp]
lemma deepMerge_includeTitle (b : ReportConfig) (x : PartialReportConfig) :
    (deepMergeConfig b x).output.includeTitle = (includeTitleLeaf x).getD b.output.includeTitle := by
  cases hx : x.output <;> simp [deepMergeConfig, spreadOutputConfig, includeTitleLeaf, hx]

@[simp]
lemma deepMerge_includeSummary (b : ReportConfig) (x : PartialReportConfig) :
    (deepMergeConfig b x).output.includeSummary = (includeSummaryLeaf x).getD b.output.includeSummary := by
  cases hx : x.output <;> simp [deepMergeConfig, spreadOutputConfig, includeSummaryLeaf, hx]

@[simp]
lemma deepMerge_includeTimestamp (b : ReportConfig) (x : PartialReportConfig) :
    (deepMergeConfig b x).output.includeTimestamp = (includeTimestampLeaf x).getD b.output.includeTimestamp := by
  cases hx : x.output <;> simp [deepMergeConfig, spreadOutputConfig, includeTimestampLeaf, hx]

@[simp]
lemma deepMerge_dateFormat (b : ReportConfig) (x : PartialReportConfig) :
    (deepMergeConfig b x).output.dateFormat = (dateFormatLeaf x).getD b.output.dateFormat := by
  cases hx : x.output <;> simp [deepMergeConfig, spreadOutputConfig, dateFormatLeaf, hx]

@[simp]
lemma deepMerge_worksheetName (b : ReportConfig) (x : PartialReportConfig) :
    (deepMergeConfig b x).output.worksheetName = (worksheetNameLeaf x).getD b.output.worksheetName := by
  cases hx : x.output <;> simp [deepMergeConfig, spreadOutputConfig, worksheetNameLeaf, hx]

@[simp]
lemma deepMerge_customHeaders (b : ReportConfig) (x : PartialReportConfig)
    (k : ColumnName) :
    (deepMergeConfig b x).columns.customHeaders k
      = (customHeadersLeaf x k).orElse fun _ => b.columns.customHeaders k := by
  cases hx : x.columns <;>
    simp [deepMergeConfig, spreadColumnConfig, customHeadersLeaf, hx, Option.orElse]

@[simp]
lemma mergeCfg_visible (u : PartialReportConfig) (k : ColumnName) :
    (mergeConfig u).columns.visible k = (visLeaf u k).getD (DEFAULT_CONFIG.columns.visible k) := by
  simp [mergeConfig, visLeaf]

@[simp]
lemma mergeCfg_widths (u : PartialReportConfig) (k : ColumnName) :
    (mergeConfig u).columns.widths k = (widthsLeaf u k).getD (DEFAULT_CONFIG.columns.widths k) := by
  simp [mergeConfig, widthsLeaf]

@[simp]
lemma mergeCfg_priorityColor (u : PartialReportConfig) (k : PriorityColorKey) :
    (mergeConfig u).colors.priority k = (priorityColorLeaf u k).getD (DEFAULT_CONFIG.colors.priority k) := by
  simp [mergeConfig, priorityColorLeaf]

@[simp]
lemma mergeCfg_severityColor (u : PartialReportConfig) (k : SeverityColorKey) :
    (mergeConfig u).colors.severity k = (severityColorLeaf u k).getD (DEFAULT_CONFIG.colors.severity k) := by
  simp [mergeConfig, severityColorLeaf]

@[simp]
lemma mergeCfg_textColor (u : PartialReportConfig) (k : TextColorKey) :
    (mergeConfig u).colors.text k = (textColorLeaf u k).getD (DEFAULT_CONFIG.colors.text k) := by
  simp [mergeConfig, textColorLeaf]

@[simp]
lemma mergeCfg_backgroundColor (u : PartialReportConfig) (k : BackgroundColorKey) :
    (mergeConfig u).colors.background k = (backgroundColorLeaf u k).getD (DEFAULT_CONFIG.colors.background k) := by
  simp [mergeConfig, backgroundColorLeaf]

@[simp]
lemma mergeCfg_cvssColor (u : PartialReportConfig) (k : CvssColorKey) :
    (mergeConfig u).colors.cvss k = (cvssColorLeaf u k).getD (DEFAULT_CONFIG.colors.cvss k) := by
  simp [mergeConfig, cvssColorLeaf]

@[simp]
lemma mergeCfg_fixColor (u : PartialReportConfig) (k : FixColorKey) :
    (mergeConfig u).colors.fix k = (fixColorLeaf u k).getD (DEFAULT_CONFIG.colors.fix k) := by
  simp [mergeConfig, fixColorLeaf]

@[simp]
lemma mergeCfg_rowHeights (u : PartialReportConfig) (k : RowHeightKey) :
    (mergeConfig u).layout.rowHeights k = (rowHeightsLeaf u k).getD (DEFAULT_CONFIG.layout.rowHeights k) := by
  simp [mergeConfig, rowHeightsLeaf]

@[simp]
lemma mergeCfg_fontSizes (u : PartialReportConfig) (k : FontSizeKey) :
    (mergeConfig u).layout.fontSizes k = (fontSizesLeaf u k).getD (DEFAULT_CONFIG.layout.fontSizes k) := by
  simp [mergeConfig, fontSizesLeaf]

@[simp]
lemma mergeCfg_textLimits (u : PartialReportConfig) (k : TextLimitKey) :
    (mergeConfig u).layout.textLimits k = (textLimitsLeaf u k).getD (DEFAULT_CONFIG.layout.textLimits k) := by
  simp [mergeConfig, textLimitsLeaf]

@[simp]
lemma mergeCfg_freezePanes (u : PartialReportConfig) (k : FreezePaneKey) :
    (mergeConfig u).layout.freezePanes k = (freezePanesLeaf u k).getD (DEFAULT_CONFIG.layout.freezePanes k) := by
  simp [mergeConfig, freezePanesLeaf]

@[simp]
lemma mergeCfg_severityWeights (u : PartialReportConfig) (k : SeverityLevel) :
    (mergeConfig u).scoring.severityWeights k = (severityWeightsLeaf u k).getD (DEFAULT_CONFIG.scoring.severityWeights k) := by
  simp [mergeConfig, severityWeightsLeaf]

@[simp]
lemma mergeCfg_bonusPoints (u : PartialReportConfig) (k : BonusKey) :
    (mergeConfig u).scoring.bonusPoints k = (bonusPointsLeaf u k).getD (DEFAULT_CONFIG.scoring.bonusPoints k) := by
  simp [mergeConfig, bonusPointsLeaf]

@[simp]
lemma mergeCfg_penalties (u : PartialReportConfig) (k : PenaltyKey) :
    (mergeConfig u).scoring.penalties k = (penaltiesLeaf u k).getD (DEFAULT_CONFIG.scoring.penalties k) := by
  simp [mergeConfig, penaltiesLeaf]

@[simp]
lemma mergeCfg_thresholds (u : PartialReportConfig) (k : ThresholdKey) :
    (mergeConfig u).scoring.thresholds k = (thresholdsLeaf u k).getD (DEFAULT_CONFIG.scoring.thresholds k) := by
  simp [mergeConfig, thresholdsLeaf]

@[simp]
lemma mergeCfg_order (u : PartialReportConfig) :
    (mergeConfig u).columns.order = (orderLeaf u).getD DEFAULT_CONFIG.columns.order := by
  simp [mergeConfig, orderLeaf]

@[simp]
lemma mergeCfg_border (u : PartialReportConfig) :
    (mergeConfig u).colors.border = (borderLeaf u).getD DEFAULT_CONFIG.colors.border := by
  simp [mergeConfig, borderLeaf]

@[simp]
lemma mergeCfg_enableAutoFilter (u : PartialReportConfig) :
    (mergeConfig u).layout.enableAutoFilter = (autoFilterLeaf u).getD DEFAULT_CONFIG.layout.enableAutoFilter := by
  simp [mergeConfig, autoFilterLeaf]

@[simp]
lemma mergeCfg_enableAlternatingRows (u : PartialReportConfig) :
    (mergeConfig u).layout.enableAlternatingRows = (alternatingRowsLeaf u).getD DEFAULT_CONFIG.layout.enableAlternatingRows := by
  simp [mergeConfig, alternatingRowsLeaf]

@[simp]
lemma mergeCfg_includeTitle (u : PartialReportConfig) :
    (mergeConfig u).output.includeTitle = (includeTitleLeaf u).getD DEFAULT_CONFIG.output.includeTitle := by
  simp [mergeConfig, includeTitleLeaf]

@[simp]
lemma mergeCfg_includeSummary (u : PartialReportConfig) :
    (mergeConfig u).output.includeSummary = (includeSummaryLeaf u).getD DEFAULT_CONFIG.output.includeSummary := by
  simp [mergeConfig, includeSummaryLeaf]

@[simp]
lemma mergeCfg_includeTimestamp (u : PartialReportConfig) :
    (mergeConfig u).output.includeTimestamp = (includeTimestampLeaf u).getD DEFAULT_CONFIG.output.includeTimestamp := by
  simp [mergeConfig, includeTimestampLeaf]

@[simp]
lemma mergeCfg_dateFormat (u : PartialReportConfig) :
    (mergeConfig u).output.dateFormat = (dateFormatLeaf u).getD DEFAULT_CONFIG.output.dateFormat := by
  simp [mergeConfig, dateFormatLeaf]

@[simp]
lemma mergeCfg_worksheetName (u : PartialReportConfig) :
    (mergeConfig u).output.worksheetName = (worksheetNameLeaf u).getD DEFAULT_CONFIG.output.worksheetName := by
  simp [mergeConfig, worksheetNameLeaf]

@[simp]
lemma mergeCfg_customHeaders (u : PartialReportConfig) (k : ColumnName) :
    (mergeConfig u).columns.customHeaders k
      = (customHeadersLeaf u k).orElse fun _ => DEFAULT_CONFIG.columns.customHeaders k := by
  cases hu : u.columns with
  | none => simp [mergeConfig, customHeadersLeaf, hu, Option.orElse]
  | some pc =>
    cases hpc : pc.customHeaders with
    | none => simp [mergeConfig, customHeadersLeaf, hu, hpc, Option.orElse, DEFAULT_CONFIG]
    | some m =>
      cases hm : m k <;>
        simp [mergeConfig, customHeadersLeaf, hu, hpc, hm, Option.orElse, DEFAULT_CONFIG]

/-- C1: for every preset, file-sourced partial configuration and inline
partial configuration, `loadConfig` assigns to each leaf field the value from
the highest-precedence source that sets it, with precedence
built-in defaults < preset < file < inline; in particular a leaf touched only
by the inline layer equals the inline value, a leaf touched only by the
preset equals the preset value, and the inline merge never reverts a leaf it
does not mention to the default when the file layer customized it. -/
theorem loadConfig_precedence
    (pName : String) (pCfg fCfg inl : PartialReportConfig) (fr : FileRead)
    (hp : lookupPreset pName = some pCfg)
    (hf : loadConfigFromFile fr = Except.ok fCfg) :
    (∀ k : ColumnName, (loadConfig ⟨some fr, some pName, some inl⟩).columns.visible k =
      (visLeaf inl k).getD ((visLeaf fCfg k).getD ((visLeaf pCfg k).getD
        (DEFAULT_CONFIG.columns.visible k)))) ∧
    ((loadConfig ⟨some fr, some pName, some inl⟩).columns.order =
      (orderLeaf inl).getD ((orderLeaf fCfg).getD ((orderLeaf pCfg).getD
        DEFAULT_CONFIG.columns.order))) ∧
    (∀ k : ColumnName, (loadConfig ⟨some fr, some pName, some inl⟩).columns.widths k =
      (widthsLeaf inl k).getD ((widthsLeaf fCfg k).getD ((widthsLeaf pCfg k).getD
        (DEFAULT_CONFIG.columns.widths k)))) ∧
    (∀ k : ColumnName, (loadConfig ⟨some fr, some pName, some inl⟩).columns.customHeaders k =
      (customHeadersLeaf inl k).orElse fun _ => (customHeadersLeaf fCfg k).orElse fun _ =>
        (customHeadersLeaf pCfg k).orElse fun _ => DEFAULT_CONFIG.columns.customHeaders k) ∧
    (∀ k : PriorityColorKey, (loadConfig ⟨some fr, some pName, some inl⟩).colors.priority k =
      (priorityColorLeaf inl k).getD ((priorityColorLeaf fCfg k).getD ((priorityColorLeaf pCfg k).getD
        (DEFAULT_CONFIG.colors.priority k)))) ∧
    (∀ k : SeverityColorKey, (loadConfig ⟨some fr, some pName, some inl⟩).colors.severity k =
      (severityColorLeaf inl k).getD ((severityColorLeaf fCfg k).getD ((severityColorLeaf pCfg k).getD
        (DEFAULT_CONFIG.colors.severity k)))) ∧
    (∀ k : TextColorKey, (loadConfig ⟨some fr, some pName, some inl⟩).colors.text k =
      (textColorLeaf inl k).getD ((textColorLeaf fCfg k).getD ((textColorLeaf pCfg k).getD
        (DEFAULT_CONFIG.colors.text k)))) ∧
    (∀ k : BackgroundColorKey, (loadConfig ⟨some fr, some pName, some inl⟩).colors.background k =
      (backgroundColorLeaf inl k).getD ((backgroundColorLeaf fCfg k).getD ((backgroundColorLeaf pCfg k).getD
        (DEFAULT_CONFIG.colors.background k)))) ∧
    (∀ k : CvssColorKey, (loadConfig ⟨some fr, some pName, some inl⟩).colors.cvss k =
      (cvssColorLeaf inl k).getD ((cvssColorLeaf fCfg k).getD ((cvssColorLeaf pCfg k).getD
        (DEFAULT_CONFIG.colors.cvss k)))) ∧
    (∀ k : FixColorKey, (loadConfig ⟨some fr, some pName, some inl⟩).colors.fix k =
      (fixColorLeaf inl k).getD ((fixColorLeaf fCfg k).getD ((fixColorLeaf pCfg k).getD
        (DEFAULT_CONFIG.colors.fix k)))) ∧
    ((loadConfig ⟨some fr, some pName, some inl⟩).colors.border =
      (borderLeaf inl).getD ((borderLeaf fCfg).getD ((borderLeaf pCfg).getD
        DEFAULT_CONFIG.colors.border))) ∧
    (∀ k : RowHeightKey, (loadConfig ⟨some fr, some pName, some inl⟩).layout.rowHeights k =
      (rowHeightsLeaf inl k).getD ((rowHeightsLeaf fCfg k).getD ((rowHeightsLeaf pCfg k).getD
        (DEFAULT_CONFIG.layout.rowHeights k)))) ∧
    (∀ k : FontSizeKey, (loadConfig ⟨some fr, some pName, some inl⟩).layout.fontSizes k =
      (fontSizesLeaf inl k).getD ((fontSizesLeaf fCfg k).getD ((fontSizesLeaf pCfg k).getD
        (DEFAULT_CONFIG.layout.fontSizes k)))) ∧
    (∀ k : TextLimitKey, (loadConfig ⟨some fr, some pName, some inl⟩).layout.textLimits k =
      (textLimitsLeaf inl k).getD ((textLimitsLeaf fCfg k).getD ((textLimitsLeaf pCfg k).getD
        (DEFAULT_CONFIG.layout.textLimits k)))) ∧
    (∀ k : FreezePaneKey, (loadConfig ⟨some fr, some pName, some inl⟩).layout.freezePanes k =
      (freezePanesLeaf inl k).getD ((freezePanesLeaf fCfg k).getD ((freezePanesLeaf pCfg k).getD
        (DEFAULT_CONFIG.layout.freezePanes k)))) ∧
    ((loadConfig ⟨some fr, some pName, some inl⟩).layout.enableAutoFilter =
      (autoFilterLeaf inl).getD ((autoFilterLeaf fCfg).getD ((autoFilterLeaf pCfg).getD
        DEFAULT_CONFIG.layout.enableAutoFilter))) ∧
    ((loadConfig ⟨some fr, some pName, some inl⟩).layout.enableAlternatingRows =
      (alternatingRowsLeaf inl).getD ((alternatingRowsLeaf fCfg).getD ((alternatingRowsLeaf pCfg).getD
        DEFAULT_CONFIG.layout.enableAlternatingRows))) ∧
    (∀ k : SeverityLevel, (loadConfig ⟨some fr, some pName, some inl⟩).scoring.severityWeights k =
      (severityWeightsLeaf inl k).getD ((severityWeightsLeaf fCfg k).getD ((severityWeightsLeaf pCfg k).getD
        (DEFAULT_CONFIG.scoring.severityWeights k)))) ∧
    (∀ k : BonusKey, (loadConfig ⟨some fr, some pName, some inl⟩).scoring.bonusPoints k =
      (bonusPointsLeaf inl k).getD ((bonusPointsLeaf fCfg k).getD ((bonusPointsLeaf pCfg k).getD
        (DEFAULT_CONFIG.scoring.bonusPoints k)))) ∧
    (∀ k : PenaltyKey, (loadConfig ⟨some fr, some pName, some inl⟩).scoring.penalties k =
      (penaltiesLeaf inl k).getD ((penaltiesLeaf fCfg k).getD ((penaltiesLeaf pCfg k).getD
        (DEFAULT_CONFIG.scoring.penalties k)))) ∧
    (∀ k : ThresholdKey, (loadConfig ⟨some fr, some pName, some inl⟩).scoring.thresholds k =
      (thresholdsLeaf inl k).getD ((thresholdsLeaf fCfg k).getD ((thresholdsLeaf pCfg k).getD
        (DEFAULT_CONFIG.scoring.thresholds k)))) ∧
    ((loadConfig ⟨some fr, some pName, some inl⟩).output.includeTitle =
      (includeTitleLeaf inl).getD ((includeTitleLeaf fCfg).getD ((includeTitleLeaf pCfg).getD
        DEFAULT_CONFIG.output.includeTitle))) ∧
    ((loadConfig ⟨some fr, some pName, some inl⟩).output.includeSummary =
      (includeSummaryLeaf inl).getD ((includeSummaryLeaf fCfg).getD ((includeSummaryLeaf pCfg).getD
        DEFAULT_CONFIG.output.includeSummary))) ∧
    ((loadConfig ⟨some fr, some pName, some inl⟩).output.includeTimestamp =
      (includeTimestampLeaf inl).getD ((includeTimestampLeaf fCfg).getD ((includeTimestampLeaf pCfg).getD
        DEFAULT_CONFIG.output.includeTimestamp))) ∧
    ((loadConfig ⟨some fr, some pName, some inl⟩).output.dateFormat =
      (dateFormatLeaf inl).getD ((dateFormatLeaf fCfg).getD ((dateFormatLeaf pCfg).getD
        DEFAULT_CONFIG.output.dateFormat))) ∧
    ((loadConfig ⟨some fr, some pName, some inl⟩).output.worksheetName =
      (worksheetNameLeaf inl).getD ((worksheetNameLeaf fCfg).getD ((worksheetNameLeaf pCfg).getD
        DEFAULT_CONFIG.output.worksheetName))) := by
  have hres : loadConfig ⟨some fr, some pName, some inl⟩ =
      deepMergeConfig (deepMergeConfig (mergeConfig pCfg) fCfg) inl := by
    simp [loadConfig, hp, hf]
  simp [hres]

/-- Witness for the precedence theorem: the `minimal` preset together with a
valid file layer and an empty inline layer, observed at the `priority`
column's visibility. -/
theorem loadConfig_precedence_witness :
    lookupPreset "minimal" = some minimalPreset ∧
    loadConfigFromFile (FileRead.content (some borderPartial)) = Except.ok borderPartial ∧
    (loadConfig ⟨some (FileRead.content (some borderPartial)), some "minimal",
        some emptyPartialConfig⟩).columns.visible .priority =
      (visLeaf emptyPartialConfig .priority).getD
        ((visLeaf borderPartial .priority).getD
          ((visLeaf minimalPreset .priority).getD
            (DEFAULT_CONFIG.columns.visible .priority))) :=
  ⟨rfl, rfl,
    (loadConfig_precedence "minimal" minimalPreset borderPartial emptyPartialConfig
      (FileRead.content (some borderPartial)) rfl rfl).1 .priority⟩

/-- C2: the merge is a non-destructive per-key deep merge: resolving any
built-in preset alone leaves every leaf the preset does not mention at its
default value, and merging a partial configuration that sets a single
severity weight changes only that key, in every nested record. -/
theorem mergeConfig_nondestructive :
    ((mergeConfig minimalPreset).colors = DEFAULT_CONFIG.colors ∧
     (mergeConfig minimalPreset).layout = DEFAULT_CONFIG.layout ∧
     (mergeConfig minimalPreset).scoring = DEFAULT_CONFIG.scoring ∧
     (mergeConfig minimalPreset).output = DEFAULT_CONFIG.output ∧
     (mergeConfig minimalPreset).columns.widths = DEFAULT_CONFIG.columns.widths ∧
     (mergeConfig minimalPreset).columns.customHeaders
       = DEFAULT_CONFIG.columns.customHeaders) ∧
    ((mergeConfig developerPreset).colors = DEFAULT_CONFIG.colors ∧
     (mergeConfig developerPreset).layout = DEFAULT_CONFIG.layout ∧
     (mergeConfig developerPreset).scoring = DEFAULT_CONFIG.scoring ∧
     (mergeConfig developerPreset).output = DEFAULT_CONFIG.output ∧
     (mergeConfig developerPreset).columns.widths = DEFAULT_CONFIG.columns.widths ∧
     (mergeConfig developerPreset).columns.customHeaders
       = DEFAULT_CONFIG.columns.customHeaders) ∧
    ((mergeConfig securityPreset).colors = DEFAULT_CONFIG.colors ∧
     (mergeConfig securityPreset).layout = DEFAULT_CONFIG.layout ∧
     (mergeConfig securityPreset).scoring = DEFAULT_CONFIG.scoring ∧
     (mergeConfig securityPreset).output = DEFAULT_CONFIG.output ∧
     (mergeConfig securityPreset).columns.widths = DEFAULT_CONFIG.columns.widths ∧
     (mergeConfig securityPreset).columns.customHeaders
       = DEFAULT_CONFIG.columns.customHeaders) ∧
    ((mergeConfig highContrastPreset).columns = DEFAULT_CONFIG.columns ∧
     (mergeConfig highContrastPreset).layout = DEFAULT_CONFIG.layout ∧
     (mergeConfig highContrastPreset).scoring = DEFAULT_CONFIG.scoring ∧
     (mergeConfig highContrastPreset).output = DEFAULT_CONFIG.output) ∧
    (∀ (base : ReportConfig) (s : SeverityLevel) (w : Int),
      (deepMergeConfig base (singleWeightPartial s w)).scoring.severityWeights s = w ∧
      (∀ t, t ≠ s →
        (deepMergeConfig base (singleWeightPartial s w)).scoring.severityWeights t
          = base.scoring.severityWeights t) ∧
      (deepMergeConfig base (singleWeightPartial s w)).scoring.bonusPoints
        = base.scoring.bonusPoints ∧
      (deepMergeConfig base (singleWeightPartial s w)).scoring.penalties
        = base.scoring.penalties ∧
      (deepMergeConfig base (singleWeightPartial s w)).scoring.thresholds
        = base.scoring.thresholds ∧
      (deepMergeConfig base (singleWeightPartial s w)).columns = base.columns ∧
      (deepMergeConfig base (singleWeightPartial s w)).colors = base.colors ∧
      (deepMergeConfig base (singleWeightPartial s w)).layout = base.layout ∧
      (deepMergeConfig base (singleWeightPartial s w)).output = base.output) ∧
    (∀ (s : SeverityLevel) (w : Int),
      (mergeConfig (singleWeightPartial s w)).scoring.severityWeights s = w ∧
      ∀ t, t ≠ s →
        (mergeConfig (singleWeightPartial s w)).scoring.severityWeights t
          = DEFAULT_CONFIG.scoring.severityWeights t) := by
  refine ⟨⟨rfl, rfl, rfl, rfl, rfl, rfl⟩, ⟨rfl, rfl, rfl, rfl, rfl, rfl⟩,
    ⟨rfl, rfl, rfl, rfl, rfl, rfl⟩, ⟨rfl, rfl, rfl, rfl⟩, ?_, ?_⟩
  · intro base s w
    refine ⟨?_, ?_, rfl, rfl, rfl, rfl, rfl, rfl, rfl⟩
    · simp [deepMergeConfig, spreadScoringConfig, singleWeightPartial, spreadRecord]
    · intro t ht
      simp [deepMergeConfig, spreadScoringConfig, singleWeightPartial, spreadRecord, ht]
  · intro s w
    refine ⟨?_, ?_⟩
    · simp [mergeConfig, singleWeightPartial, spreadRecord]
    · intro t ht
      simp [mergeConfig, singleWeightPartial, spreadRecord, ht]

/-- Witness for the non-destructive merge theorem: overriding the critical
severity weight on top of the default configuration changes that weight and
leaves the low weight untouched. -/
theorem mergeConfig_nondestructive_witness :
    SeverityLevel.low ≠ SeverityLevel.critical ∧
    (deepMergeConfig DEFAULT_CONFIG
        (singleWeightPartial SeverityLevel.critical 99)).scoring.severityWeights
      SeverityLevel.critical = 99 ∧
    (deepMergeConfig DEFAULT_CONFIG
        (singleWeightPartial SeverityLevel.critical 99)).scoring.severityWeights
      SeverityLevel.low = DEFAULT_CONFIG.scoring.severityWeights SeverityLevel.low :=
  ⟨by decide,
   (mergeConfig_nondestructive.2.2.2.2.1 DEFAULT_CONFIG SeverityLevel.critical 99).1,
   (mergeConfig_nondestructive.2.2.2.2.1 DEFAULT_CONFIG SeverityLevel.critical 99).2.1
     SeverityLevel.low (by decide)⟩

/-- C3: under the default configuration a critical, direct vulnerability
with a non-major fix, CVSS 9.5 and one affected package scores exactly
40 + 15 + 10 + 10 - 2 = 73 and is URGENT, and a low, indirect, fixless
vulnerability with CVSS 0 and no effects scores 10 and is LOW. -/
theorem defaultScoring_scenarios :
    calculatePriorityScore DEFAULT_CONFIG.scoring SeverityLevel.critical true
        (some false) (9.5 : Rat) 1 = 73 ∧
    priorityCategoryOf DEFAULT_CONFIG.scoring 73 = PriorityCategory.URGENT ∧
    calculatePriorityScore DEFAULT_CONFIG.scoring SeverityLevel.low false
        none 0 0 = 10 ∧
    priorityCategoryOf DEFAULT_CONFIG.scoring 10 = PriorityCategory.LOW := by
  refine ⟨?_, ?_, ?_, ?_⟩ <;>
    (norm_num [calculatePriorityScore, cvssBonus, effectsPenalty, priorityCategoryOf,
      DEFAULT_CONFIG, min_def]; try decide)

/-- C4: the priority category is determined by inclusive descending
threshold comparison, first match wins; in particular a score exactly at the
urgent threshold is URGENT and, under the default thresholds 50/35/20, a
score one point below is HIGH. -/
theorem priorityCategory_descending :
    (∀ (cfg : ScoringConfig) (s : Int),
      (priorityCategoryOf cfg s = PriorityCategory.URGENT ↔
        cfg.thresholds .urgentPriority ≤ (s : Rat)) ∧
      (priorityCategoryOf cfg s = PriorityCategory.HIGH ↔
        ¬ cfg.thresholds .urgentPriority ≤ (s : Rat) ∧
          cfg.thresholds .highPriority ≤ (s : Rat)) ∧
      (priorityCategoryOf cfg s = PriorityCategory.MEDIUM ↔
        ¬ cfg.thresholds .urgentPriority ≤ (s : Rat) ∧
          ¬ cfg.thresholds .highPriority ≤ (s : Rat) ∧
          cfg.thresholds .mediumPriority ≤ (s : Rat)) ∧
      (priorityCategoryOf cfg s = PriorityCategory.LOW ↔
        ¬ cfg.thresholds .urgentPriority ≤ (s : Rat) ∧
          ¬ cfg.thresholds .highPriority ≤ (s : Rat) ∧
          ¬ cfg.thresholds .mediumPriority ≤ (s : Rat))) ∧
    priorityCategoryOf DEFAULT_CONFIG.scoring 50 = PriorityCategory.URGENT ∧
    priorityCategoryOf DEFAULT_CONFIG.scoring 49 = PriorityCategory.HIGH := by
  refine ⟨?_, by norm_num [priorityCategoryOf, DEFAULT_CONFIG],
    by norm_num [priorityCategoryOf, DEFAULT_CONFIG]⟩
  intro cfg s
  unfold priorityCategoryOf
  split_ifs with h1 h2 h3 <;> simp_all

/-- C5: the effects penalty subtracted from the score is exactly
`min(penalties.maxEffectsPenalty, effectsCount * penalties.effectsPerPackage)`,
and once `effectsCount` exceeds `maxEffectsPenalty / effectsPerPackage` the
contribution is exactly `maxEffectsPenalty` and grows no further. -/
theorem effectsPenalty_capped
    (cfg : ScoringConfig) (sev : SeverityLevel) (dir : Bool) (fx : Option Bool)
    (cv : Rat) (n : Nat)
    (hmax : 0 ≤ cfg.penalties .maxEffectsPenalty) :
    calculatePriorityScore cfg sev dir fx cv n
      = calculatePriorityScore cfg sev dir fx cv 0
        - min (cfg.penalties .maxEffectsPenalty)
            ((n : Int) * cfg.penalties .effectsPerPackage) ∧
    (0 < cfg.penalties .effectsPerPackage →
      (cfg.penalties .maxEffectsPenalty : Rat)
          / (cfg.penalties .effectsPerPackage : Rat) < ((n : Nat) : Rat) →
      calculatePriorityScore cfg sev dir fx cv n
        = calculatePriorityScore cfg sev dir fx cv 0
          - cfg.penalties .maxEffectsPenalty) := by
  have h0 : effectsPenalty cfg 0 = 0 := by
    unfold effectsPenalty
    norm_num [min_eq_right hmax]
  constructor
  · unfold calculatePriorityScore
    rw [h0]
    unfold effectsPenalty
    ring
  · intro hper hdiv
    have hperQ : (0 : Rat) < (cfg.penalties .effectsPerPackage : Rat) := by
      exact_mod_cast hper
    have hltQ := (div_lt_iff₀ hperQ).mp hdiv
    have hlt : cfg.penalties .maxEffectsPenalty
        < (n : Int) * cfg.penalties .effectsPerPackage := by
      exact_mod_cast hltQ
    have hmin : min (cfg.penalties .maxEffectsPenalty)
        ((n : Int) * cfg.penalties .effectsPerPackage)
        = cfg.penalties .maxEffectsPenalty := min_eq_left hlt.le
    unfold calculatePriorityScore
    rw [h0]
    unfold effectsPenalty
    rw [hmin]
    ring

/-- Witness for the effects-penalty cap: with the default penalties
(2 per package, capped at 10), six affected packages cost exactly the cap. -/
theorem effectsPenalty_capped_witness :
    (0 : Int) ≤ DEFAULT_CONFIG.scoring.penalties .maxEffectsPenalty ∧
    (0 : Int) < DEFAULT_CONFIG.scoring.penalties .effectsPerPackage ∧
    (DEFAULT_CONFIG.scoring.penalties .maxEffectsPenalty : Rat)
        / (DEFAULT_CONFIG.scoring.penalties .effectsPerPackage : Rat)
      < ((6 : Nat) : Rat) ∧
    calculatePriorityScore DEFAULT_CONFIG.scoring SeverityLevel.critical true none 0 6
      = calculatePriorityScore DEFAULT_CONFIG.scoring SeverityLevel.critical true none 0 0
        - DEFAULT_CONFIG.scoring.penalties .maxEffectsPenalty :=
  ⟨by decide, by decide, by norm_num [DEFAULT_CONFIG],
   (effectsPenalty_capped DEFAULT_CONFIG.scoring SeverityLevel.critical true none 0 6
      (by decide)).2 (by decide) (by norm_num [DEFAULT_CONFIG])⟩

/-- C6: the CVSS bonuses are mutually exclusive: at or above the high
threshold exactly the high bonus is added, strictly below it and at or above
the medium threshold exactly the medium bonus is added, otherwise neither;
the score depends on the CVSS value only through this single bonus. -/
theorem cvssBonus_exclusive :
    (∀ (cfg : ScoringConfig) (q : Rat),
      (cfg.thresholds .highCvss ≤ q → cvssBonus cfg q = cfg.bonusPoints .highCvss) ∧
      (¬ cfg.thresholds .highCvss ≤ q → cfg.thresholds .mediumCvss ≤ q →
        cvssBonus cfg q = cfg.bonusPoints .mediumCvss) ∧
      (¬ cfg.thresholds .highCvss ≤ q → ¬ cfg.thresholds .mediumCvss ≤ q →
        cvssBonus cfg q = 0) ∧
      (cvssBonus cfg q = cfg.bonusPoints .highCvss ∨
        cvssBonus cfg q = cfg.bonusPoints .mediumCvss ∨ cvssBonus cfg q = 0)) ∧
    (∀ (cfg : ScoringConfig) (sev : SeverityLevel) (dir : Bool) (fx : Option Bool)
        (n : Nat) (q q' : Rat),
      calculatePriorityScore cfg sev dir fx q n
          - calculatePriorityScore cfg sev dir fx q' n
        = cvssBonus cfg q - cvssBonus cfg q') := by
  constructor
  · intro cfg q
    unfold cvssBonus
    split_ifs with h1 h2 <;> simp_all
  · intro cfg sev dir fx n q q'
    unfold calculatePriorityScore
    ring

/-- Witness for CVSS bonus exclusivity: CVSS 9.5 under the default thresholds
receives exactly the high-CVSS bonus. -/
theorem cvssBonus_exclusive_witness :
    DEFAULT_CONFIG.scoring.thresholds .highCvss ≤ (9.5 : Rat) ∧
    cvssBonus DEFAULT_CONFIG.scoring (9.5 : Rat)
      = DEFAULT_CONFIG.scoring.bonusPoints .highCvss :=
  ⟨by norm_num [DEFAULT_CONFIG],
   (cvssBonus_exclusive.1 DEFAULT_CONFIG.scoring (9.5 : Rat)).1
     (by norm_num [DEFAULT_CONFIG])⟩

/-- Counterexample to the claim that `loadConfig` fails on an unknown preset
name: with the unknown preset name `bogus` and no other sources, `loadConfig`
returns normally and yields the default configuration; no error is raised and
the preset layer is silently skipped. -/
theorem loadConfig_unknownPreset_counterexample :
    loadConfig ⟨none, some "bogus", none⟩ = DEFAULT_CONFIG := by
  have h : lookupPreset "bogus" = none := by decide
  simp [loadConfig, h]

/-- C7 (amended): `loadConfig` silently skips an unknown preset name (the
result is as if no preset had been requested), while `applyPreset` with an
unknown preset name fails with an error whose code is `UNKNOWN_PRESET` and
whose message names the requested preset. -/
theorem unknownPreset_behavior (name : String) (h : lookupPreset name = none) :
    (∀ (cf : Option FileRead) (inl : Option PartialReportConfig),
      loadConfig ⟨cf, some name, inl⟩ = loadConfig ⟨cf, none, inl⟩) ∧
    ∀ current, applyPreset current name =
      Except.error { code := ConfigErrorCode.UNKNOWN_PRESET,
                     message := "Unknown preset: " ++ name } := by
  constructor
  · intro cf inl
    simp [loadConfig, h]
  · intro current
    simp [applyPreset, h]

/-- Witness for the unknown-preset behavior at the concrete name `bogus`. -/
theorem unknownPreset_behavior_witness :
    lookupPreset "bogus" = none ∧
    applyPreset DEFAULT_CONFIG "bogus" =
      Except.error { code := ConfigErrorCode.UNKNOWN_PRESET,
                     message := "Unknown preset: " ++ "bogus" } :=
  ⟨by decide, (unknownPreset_behavior "bogus" (by decide)).2 DEFAULT_CONFIG⟩

/-- C8: a config file whose load fails for any reason (missing file, invalid
JSON, failed validation, any other read error) is skipped entirely:
`loadConfig` does not fail and returns exactly what it would return for the
same options without the config file. -/
theorem loadConfig_fileError_skipped
    (pre : Option String) (inl : Option PartialReportConfig) (fr : FileRead)
    (e : ConfigErrorCode) (h : loadConfigFromFile fr = Except.error e) :
    loadConfig ⟨some fr, pre, inl⟩ = loadConfig ⟨none, pre, inl⟩ := by
  simp [loadConfig, h]

/-- Witness for the skipped file layer: a missing file raises
`FILE_NOT_FOUND` inside the file loader and the final configuration is the
one computed without the file. -/
theorem loadConfig_fileError_skipped_witness :
    loadConfigFromFile FileRead.enoent = Except.error ConfigErrorCode.FILE_NOT_FOUND ∧
    loadConfig ⟨some FileRead.enoent, none, none⟩ = loadConfig ⟨none, none, none⟩ :=
  ⟨rfl, loadConfig_fileError_skipped none none FileRead.enoent
    ConfigErrorCode.FILE_NOT_FOUND rfl⟩

/-- C9: re-loading the sample configuration file written by
`generateSampleConfig` through `loadConfig` with no preset and no inline
layer yields a configuration deep-equal to the built-in default; the extra
annotation keys of the sample file do not perturb the result. -/
theorem sampleConfig_roundTrip :
    loadConfig ⟨some (FileRead.content (some sampleConfigParsed)), none, none⟩
      = DEFAULT_CONFIG := by
  have hfile : loadConfigFromFile (FileRead.content (some sampleConfigParsed))
      = Except.ok sampleConfigParsed := rfl
  have hload : loadConfig ⟨some (FileRead.content (some sampleConfigParsed)), none, none⟩
      = deepMergeConfig DEFAULT_CONFIG sampleConfigParsed := by
    simp [loadConfig, hfile]
  rw [hload]
  rfl

lemma hexRegexTest_iff (l : List Char) : hexRegexTest l = true ↔ specHexBody l := by
  unfold hexRegexTest specHexBody isHexDigitChar
  simp [List.all_eq_true, or_assoc]

/-- C10: `isValidHexColor` accepts a string exactly when it consists of 6 or
8 hexadecimal digits, case-insensitive, optionally preceded by one leading
hash character; every other string, including those with a wrong length, a
non-hex character or more than one leading hash, is rejected. -/
theorem isValidHexColor_spec (s : String) :
    isValidHexColor s = true ↔ specHexColorShape s := by
  unfold isValidHexColor specHexColorShape
  cases hd : s.data with
  | nil =>
    simp [replaceLeadingHash, hexRegexTest, specHexBody]
  | cons c t =>
    by_cases hc : c = Char.ofNat 35
    · subst hc
      have hdig : isHexDigitChar (Char.ofNat 35) = false := rfl
      have h1 : hexRegexTest (Char.ofNat 35 :: t) = false := by
        simp [hexRegexTest, hdig]
      have h2 : ¬ specHexBody (Char.ofNat 35 :: t) := by
        intro hbody
        have := hbody.2 (Char.ofNat 35) (List.mem_cons_self _ _)
        revert this
        decide
      simp [replaceLeadingHash, h1, h2, hexRegexTest_iff]
    · have hrep : replaceLeadingHash (c :: t) = c :: t := by
        simp [replaceLeadingHash, hc]
      simp [hrep, hexRegexTest_iff, hc]

/-- Witness for the category bucketing at a concrete boundary: a score equal
to the default medium threshold is MEDIUM. -/
theorem priorityCategory_descending_witness :
    priorityCategoryOf DEFAULT_CONFIG.scoring 20 = PriorityCategory.MEDIUM :=
  ((priorityCategory_descending.1 DEFAULT_CONFIG.scoring 20).2.2.1).mpr
    (by norm_num [DEFAULT_CONFIG])

/-- Witness for the color validator characterization at a concrete string. -/
theorem isValidHexColor_spec_witness : isValidHexColor "AABB11" = true :=
  (isValidHexColor_spec "AABB11").mpr
    (Or.inl ⟨Or.inl (by decide), by decide⟩)
